import Mathlib

/-
  Verification development for the imago-mj guarded-chat pipeline.

  Shallow embedding of the message-safety and response-orchestration core:
  - src/services/aiService.ts   (AIService: classifier, prompt builder, generator, templates)
  - src/index.tsx               (checkContentSafety, generateEnhancedFallback, the
                                 POST /api/conversations/:conversationId/messages route)

  Modelling conventions:
  - JSON-encoded configuration strings (blocked_keywords, allowed_topics,
    theological_values) are modelled in parsed form (lists / assoc lists);
    the route parses them exactly once per request.
  - JS regexes with the i flag are modelled by lowercasing the subject and
    matching lowercase literals (equivalent for the ASCII-only literals the
    source uses).  \s is modelled as ASCII whitespace.  Each \s+ / \s* in the
    source patterns is followed by a literal starting with a non-whitespace
    character, so greedy whitespace consumption is equivalent to the regex
    backtracking semantics.
  - The external completion call (fetch) is modelled by an Upstream outcome
    parameter: failure (network error or non-ok status, the catch path) or
    success with the optional message content of the first choice.
-/

set_option maxHeartbeats 1000000
set_option maxRecDepth 8192

namespace ImagoMJ

/-- ASCII whitespace, modelling the JS regex class \s on the inputs used here. -/
def isWs (c : Char) : Bool :=
  c = ' ' || c = '\t' || c = '\n' || c = '\r' || c = '\x0b' || c = '\x0c'

/-- One token of a source regex: a literal, an alternation of literals,
one-or-more whitespace (\s+), or zero-or-more whitespace (\s*). -/
inductive PatTok where
  | lit (s : List Char)
  | alt (ss : List (List Char))
  | ws1
  | ws0

/-- A sequence of tokens (concatenation in the regex). -/
abbrev PatSeq := List PatTok

/-- A pattern: top-level alternation of sequences. -/
abbrev Pat := List PatSeq

def litTok (s : String) : PatTok := PatTok.lit s.data

def altTok (ss : List String) : PatTok := PatTok.alt (ss.map String.data)

/-- Does some prefix of `cs` match the token sequence?  Whitespace tokens
consume maximally; every token following a whitespace token in the source
patterns starts with a non-whitespace character, so this is equivalent to
the regex semantics. -/
def matchSeq : PatSeq → List Char → Bool
  | [], _ => true
  | PatTok.lit s :: rest, cs => s.isPrefixOf cs && matchSeq rest (cs.drop s.length)
  | PatTok.alt ss :: rest, cs =>
      ss.any (fun s => s.isPrefixOf cs && matchSeq rest (cs.drop s.length))
  | PatTok.ws1 :: _, [] => false
  | PatTok.ws1 :: rest, c :: cs => isWs c && matchSeq rest (cs.dropWhile isWs)
  | PatTok.ws0 :: rest, cs => matchSeq rest (cs.dropWhile isWs)

/-- Unanchored match: does the pattern match starting at any position? -/
def patTest (p : Pat) : List Char → Bool
  | [] => p.any fun sq => matchSeq sq []
  | c :: cs => (p.any fun sq => matchSeq sq (c :: cs)) || patTest p cs

/-- Lowercased character data of a string (JS toLowerCase; kernel-reducible,
unlike String.toLower).  Agrees with JS on the ASCII inputs used here. -/
def lowerData (s : String) : List Char :=
  s.data.map Char.toLower

/-- `pattern.test(content)` for a case-insensitive source regex: lowercase the
subject and match the lowercase literals. -/
def reTest (p : Pat) (content : String) : Bool :=
  patTest p (lowerData content)

/-- `hay.includes(needle)` on character lists. -/
def listContainsSub (needle : List Char) : List Char → Bool
  | [] => needle.isPrefixOf ([] : List Char)
  | c :: cs => needle.isPrefixOf (c :: cs) || listContainsSub needle cs

/-- JS `hay.includes(needle)` with both sides lowercased, i.e.
`lowerContent.includes(needle.toLowerCase())`. -/
def includesLower (hay needle : String) : Bool :=
  listContainsSub (lowerData needle) (lowerData hay)

/-- JS `lowerContent.includes(lit)` for an already-lowercase literal. -/
def lowerIncludes (hay : String) (lit : String) : Bool :=
  listContainsSub lit.data (lowerData hay)

/-- The selfHarmPatterns array of checkAdvancedContentSafety, each with its
regex source text (interpolated into the flag reason). -/
def selfHarmPatterns : List (Pat × String) := [
  ([[altTok ["kill", "hurt", "harm", "cut"], PatTok.ws1, altTok ["myself", "me"]]],
    "(?:kill|hurt|harm|cut)\\s+(?:myself|me)"),
  ([[altTok ["suicide", "suicidal"]]], "(?:suicide|suicidal)"),
  ([[litTok "end", PatTok.ws1, litTok "my", PatTok.ws1, litTok "life"],
    [litTok "ending", PatTok.ws1, litTok "my", PatTok.ws1, litTok "life"]],
    "(?:end\\s+my\\s+life|ending\\s+my\\s+life)"),
  ([[litTok "don\x27t", PatTok.ws1, litTok "want", PatTok.ws1, litTok "to", PatTok.ws1, litTok "live"],
    [litTok "want", PatTok.ws1, litTok "to", PatTok.ws1, litTok "die"]],
    "(?:don\x27t\\s+want\\s+to\\s+live|want\\s+to\\s+die)"),
  ([[litTok "self", PatTok.ws0, litTok "harm"],
    [litTok "self", PatTok.ws0, litTok "injury"]],
    "(?:self\\s*harm|self\\s*injury)")
]

/-- The dangerousPatterns array of checkAdvancedContentSafety. -/
def dangerousPatterns : List (Pat × String) := [
  ([[altTok ["drugs", "weed", "marijuana", "cocaine", "heroin", "meth"]]],
    "(?:drugs|weed|marijuana|cocaine|heroin|meth)"),
  ([[altTok ["alcohol", "drinking", "drunk", "beer", "vodka"]]],
    "(?:alcohol|drinking|drunk|beer|vodka)"),
  ([[litTok "running", PatTok.ws1, litTok "away"],
    [litTok "run", PatTok.ws1, litTok "away", PatTok.ws1, litTok "from", PatTok.ws1, litTok "home"]],
    "(?:running\\s+away|run\\s+away\\s+from\\s+home)"),
  ([[litTok "meeting", PatTok.ws1, litTok "strangers"],
    [litTok "meet", PatTok.ws1, litTok "someone", PatTok.ws1, litTok "online"]],
    "(?:meeting\\s+strangers|meet\\s+someone\\s+online)"),
  ([[litTok "sexting"], [litTok "nudes"], [litTok "inappropriate", PatTok.ws1, litTok "photos"]],
    "(?:sexting|nudes|inappropriate\\s+photos)"),
  ([[litTok "violence"], [litTok "fighting"], [litTok "hurting", PatTok.ws1, litTok "others"]],
    "(?:violence|fighting|hurting\\s+others)")
]

/-- The strictPatterns array (content_filter_level == "strict" only). -/
def strictPatterns : List (Pat × String) := [
  ([[altTok ["dating", "boyfriend", "girlfriend", "romance"]]],
    "(?:dating|boyfriend|girlfriend|romance)"),
  ([[litTok "body"], [litTok "physical", PatTok.ws1, litTok "appearance"], [litTok "looks"]],
    "(?:body|physical\\s+appearance|looks)"),
  ([[litTok "social", PatTok.ws1, litTok "media"], [litTok "instagram"],
    [litTok "tiktok"], [litTok "snapchat"]],
    "(?:social\\s+media|instagram|tiktok|snapchat)")
]

/-- ParentalControls row as consumed by the classifier and prompt builder.
allowed_topics and blocked_keywords are stored as JSON text in the source
and parsed on use; they are modelled parsed.  A missing/empty
blocked_keywords field parses to the empty list, over which the keyword
loop does nothing, matching the JS truthiness guard. -/
structure ParentalControls where
  theological_perspective : String
  content_filter_level : String
  allowed_topics : List String
  blocked_keywords : List String

/-- Result shape of checkAdvancedContentSafety / checkContentSafety. -/
structure SafetyResult where
  isSafe : Bool
  flagReason : Option String
  alertType : Option String
deriving DecidableEq

/-- AIService.checkAdvancedContentSafety: evaluates self-harm patterns,
dangerous-behavior patterns, parental blocked keywords, then (at strict
filter level only) the age-sensitive patterns, returning on first match. -/
def checkAdvancedContentSafety (content : String) (pc : ParentalControls) : SafetyResult :=
  match selfHarmPatterns.find? (fun p => reTest p.1 content) with
  | some p =>
      { isSafe := false,
        flagReason := some ("Self-harm language detected: \"" ++ p.2 ++ "\""),
        alertType := some "self_harm" }
  | none =>
  match dangerousPatterns.find? (fun p => reTest p.1 content) with
  | some p =>
      { isSafe := false,
        flagReason := some ("Dangerous content detected: \"" ++ p.2 ++ "\""),
        alertType := some "dangerous_behavior" }
  | none =>
  match pc.blocked_keywords.find? (fun k => includesLower content k) with
  | some k =>
      { isSafe := false,
        flagReason := some ("Blocked keyword detected: \"" ++ k ++ "\""),
        alertType := some "blocked_keyword" }
  | none =>
  if pc.content_filter_level = "strict" then
    match strictPatterns.find? (fun p => reTest p.1 content) with
    | some p =>
        { isSafe := false,
          flagReason := some ("Strict filter violation: \"" ++ p.2 ++ "\""),
          alertType := some "inappropriate_content" }
    | none => { isSafe := true, flagReason := none, alertType := none }
  else { isSafe := true, flagReason := none, alertType := none }

/-- The selfHarmKeywords array of index.tsx checkContentSafety. -/
def selfHarmKeywords : List String :=
  ["kill myself", "suicide", "end my life", "hurt myself", "cut myself", "self harm"]

/-- The dangerKeywords array of index.tsx checkContentSafety. -/
def dangerKeywords : List String :=
  ["drugs", "alcohol", "running away", "meeting strangers", "inappropriate content"]

/-- index.tsx checkContentSafety: plain substring keyword checks, in the
order self-harm, dangerous behavior, parental blocked keywords; it has no
filter-level stage.  (The result field is named `reason` in the source;
`flagReason` is reused here for uniformity of the result shape.) -/
def checkContentSafety (content : String) (pc : ParentalControls) : SafetyResult :=
  match selfHarmKeywords.find? (fun k => lowerIncludes content k) with
  | some k =>
      { isSafe := false,
        flagReason := some ("Self-harm language detected: \"" ++ k ++ "\""),
        alertType := some "self_harm" }
  | none =>
  match dangerKeywords.find? (fun k => lowerIncludes content k) with
  | some k =>
      { isSafe := false,
        flagReason := some ("Dangerous content detected: \"" ++ k ++ "\""),
        alertType := some "dangerous_behavior" }
  | none =>
  match pc.blocked_keywords.find? (fun k => includesLower content k) with
  | some k =>
      { isSafe := false,
        flagReason := some ("Blocked keyword detected: \"" ++ k ++ "\""),
        alertType := some "blocked_keyword" }
  | none => { isSafe := true, flagReason := none, alertType := none }

/-- A text matches some self-harm regex of checkAdvancedContentSafety. -/
def matchesAnySelfHarm (content : String) : Bool :=
  selfHarmPatterns.any fun p => reTest p.1 content

/-- A text matches some dangerous-behavior regex of checkAdvancedContentSafety. -/
def matchesAnyDangerous (content : String) : Bool :=
  dangerousPatterns.any fun p => reTest p.1 content

/-- A text matches some strict-level age-sensitive regex. -/
def matchesAnyStrict (content : String) : Bool :=
  strictPatterns.any fun p => reTest p.1 content

/-- A text contains some parental blocked keyword (case-insensitively). -/
def matchesBlocked (content : String) (pc : ParentalControls) : Bool :=
  pc.blocked_keywords.any fun k => includesLower content k

/-- A text contains some self-harm keyword of the index.tsx classifier. -/
def matchesBasicSelfHarm (content : String) : Bool :=
  selfHarmKeywords.any fun k => lowerIncludes content k

/-- A text contains some danger keyword of the index.tsx classifier. -/
def matchesBasicDanger (content : String) : Bool :=
  dangerKeywords.any fun k => lowerIncludes content k



/-! ### Safety-response and fallback templates (aiService.ts) -/

/-- generateSafetyResponse template for self_harm. -/
def safetySelfHarmT : String :=
  "I notice you might be going through something really difficult right now. Please know that God loves you deeply, and there are people who care about you. I\x27d encourage you to talk to your parents, a pastor, or a trusted counselor right away. You are precious to God and your life has value. Can we talk about something that might encourage you instead?"

/-- generateSafetyResponse template for dangerous_behavior. -/
def safetyDangerousT : String :=
  "I want to help you make wise choices that honor God and keep you safe. The Bible tells us to flee from temptation and seek wisdom. Instead of discussing this topic, let\x27s focus on something positive that can help you grow. What\x27s something you\x27re learning about or working on that I can help you with?"

/-- generateSafetyResponse template for blocked_keyword. -/
def safetyBlockedT : String :=
  "This topic isn\x27t something we should discuss right now. Your parents have set these boundaries because they love you and want what\x27s best for you. Let\x27s talk about something else instead - maybe your studies, a hobby, or a question about faith? I\x27m here to help you learn and grow!"

/-- generateSafetyResponse template for inappropriate_content. -/
def safetyInappropriateT : String :=
  "Let\x27s keep our conversation focused on things that are pure, lovely, and praiseworthy (Philippians 4:8). I\x27m here to help you with your studies, answer questions about faith, or discuss other positive topics. What would you like to learn about today?"

/-- AIService.generateSafetyResponse: template lookup by alert type; an
unknown key falls back to the inappropriate_content template
(`responses[alertType] || responses.inappropriate_content`). -/
def generateSafetyResponse (alertType : String) : String :=
  if alertType = "self_harm" then safetySelfHarmT
  else if alertType = "dangerous_behavior" then safetyDangerousT
  else if alertType = "blocked_keyword" then safetyBlockedT
  else safetyInappropriateT

/-- AIService.generateFallbackResponse academic-help template. -/
def fbAcademic : String :=
  "I\x27d be happy to help you with your studies! God has given us minds to learn and grow, and I want to support you in using your talents for His glory. Can you tell me more specifically what you\x27re working on so I can provide the best help?"

/-- AIService.generateFallbackResponse Bible/faith template. -/
def fbFaith : String :=
  "That\x27s a wonderful question about faith! The Bible is full of wisdom and truth that can guide us in every area of life. Let\x27s explore this together and see what God\x27s Word teaches us. What specific aspect would you like to understand better?"

/-- AIService.generateFallbackResponse life-advice template. -/
def fbAdvice : String :=
  "I\x27m here to help! Life can be challenging, but God promises to give us wisdom when we ask (James 1:5). Remember that your parents love you and want what\x27s best for you too. Can you share more about what\x27s on your mind so I can offer some biblical encouragement?"

/-- AIService.generateFallbackResponse default template. -/
def fbDefault : String :=
  "I understand you\x27re looking for guidance. As your AI companion created with your parents\x27 values in mind, I\x27m here to help you grow in wisdom and knowledge while keeping Christ at the center of our conversations. The Bible says \"Trust in the LORD with all your heart and lean not on your own understanding\" (Proverbs 3:5). How can I help you today?"

/-- CustomGPT row as consumed by the generator.  theological_values is a
JSON object string in the source, parsed on use; it is modelled as an
association list so that unknown flags are representable (and ignored by
the lookups below). -/
structure CustomGPT where
  id : String
  name : String
  system_prompt : String
  theological_values : List (String × String)
  personality_traits : String

/-- JS property access on the parsed theological_values object. -/
def tvLookup (tv : List (String × String)) (key : String) : Option String :=
  (tv.find? fun p => p.1 = key).map fun p => p.2

/-- AIService.generateFallbackResponse: keyword dispatch over the message
(the customGPT argument is taken but unused, as in the source). -/
def generateFallbackResponse (message : String) (customGPT : CustomGPT) : String :=
  if lowerIncludes message "math" || lowerIncludes message "homework" || lowerIncludes message "study" then
    fbAcademic
  else if lowerIncludes message "bible" || lowerIncludes message "god" || lowerIncludes message "jesus" || lowerIncludes message "faith" then
    fbFaith
  else if lowerIncludes message "advice" || lowerIncludes message "help" || lowerIncludes message "problem" then
    fbAdvice
  else
    fbDefault

/-! ### Enhanced fallback templates (index.tsx generateEnhancedFallback) -/

/-- generateEnhancedFallback flagged-input template. -/
def efFlagged : String :=
  "I notice you might be going through something difficult. Remember that God loves you deeply, and there are people who care about you. If you\x27re struggling, please talk to a trusted adult like your parents, a teacher, or a counselor. Is there something positive I can help you with instead?"

/-- generateEnhancedFallback mathematics template. -/
def efMath : String :=
  "I\x27d love to help you with your math studies! Mathematics beautifully reflects God\x27s perfect order and design throughout creation. When we solve equations, we\x27re discovering the logical relationships that God built into reality itself.\n\nWhat specific math concept are you working on? Whether it\x27s algebra, geometry, or another area, I\x27m here to walk through it step by step with you. Remember, Proverbs tells us that \"the beginning of wisdom is the fear of the Lord\" - and that includes using our minds to understand His mathematical design!\n\nWhat particular problem or concept would you like to explore together?"

/-- generateEnhancedFallback Bible/faith template. -/
def efFaith : String :=
  "What a wonderful question about faith! I\x27m excited to explore God\x27s Word with you. The Bible is our ultimate source of truth and wisdom, and Jesus said \"Ask and it will be given to you; seek and you will find; knock and the door will be opened to you\" (Matthew 7:7).\n\nGod\x27s Word has so much to teach us about life, character, and how to live in a way that honors Him. Whether you\x27re curious about a specific Bible verse, want to understand a biblical principle, or are seeking guidance on how faith applies to your daily life, I\x27m here to help.\n\nWhat specific aspect of faith or Scripture would you like to dive into together?"

/-- generateEnhancedFallback friendships/relationships template. -/
def efRelationship : String :=
  "Relationships and friendships are such an important part of life, and God has a lot to say about how we should treat others! The Bible teaches us to \"love one another as I have loved you\" (John 13:34) and to be the kind of friend we\x27d want to have ourselves.\n\nWhether you\x27re navigating friendship challenges, wondering how to be a better friend, or thinking about relationships in general, remember that God desires us to build connections that honor Him and help us grow in character.\n\nWhat\x27s on your heart about friendships or relationships? I\x27d love to help you think through it with biblical wisdom and practical guidance."

/-- generateEnhancedFallback science template. -/
def efScience : String :=
  "Science is amazing - it\x27s one of the ways we get to explore and understand God\x27s incredible creation! From the smallest atoms to the vastness of space, everything displays His wisdom, power, and creativity. As Psalm 19:1 says, \"The heavens declare the glory of God; the skies proclaim the work of his hands.\"\n\nWhether you\x27re studying biology, chemistry, physics, or earth science, you\x27re discovering the intricate designs and laws that God established. Science helps us understand HOW God\x27s creation works, while the Bible tells us WHO created it and WHY.\n\nWhat area of science are you curious about? I\x27d love to help you see both the scientific principles and the amazing way they point to our Creator!"

/-- generateEnhancedFallback default template. -/
def efDefault : String :=
  "I\x27m here to help you grow in wisdom and knowledge while keeping Christ at the center of our conversations! Whether you have questions about your studies, faith, relationships, or life in general, I want to provide guidance that\x27s both practical and rooted in biblical truth.\n\nGod has given you a wonderful mind and heart, and I\x27m excited to explore whatever questions or topics you\x27re thinking about. The Bible reminds us that \"if any of you lacks wisdom, you should ask God, who gives generously to all without finding fault, and it will be given to you\" (James 1:5).\n\nWhat\x27s on your mind today? What would you like to learn about or discuss?"

/-- index.tsx generateEnhancedFallback: flagged inputs get the crisis
redirect; otherwise keyword dispatch over the lowercased content. -/
def generateEnhancedFallback (content : String) (isFlagged : Bool) : String :=
  if isFlagged then efFlagged
  else if lowerIncludes content "math" || lowerIncludes content "algebra" || lowerIncludes content "homework" then
    efMath
  else if lowerIncludes content "bible" || lowerIncludes content "god" || lowerIncludes content "jesus" || lowerIncludes content "faith" then
    efFaith
  else if lowerIncludes content "friend" || lowerIncludes content "relationship" || lowerIncludes content "social" then
    efRelationship
  else if lowerIncludes content "science" || lowerIncludes content "nature" || lowerIncludes content "creation" then
    efScience
  else
    efDefault

/-! ### System prompt builder (AIService.buildSystemPrompt) -/

/-- The fixed CONTENT GUIDELINES block. -/
def contentGuidelinesBlock : String :=
  "\nCONTENT GUIDELINES:\n" ++
  "- Keep responses appropriate for teens aged 13-18\n" ++
  "- Always point toward biblical wisdom and godly character\n" ++
  "- Encourage academic excellence while showing grace\n" ++
  "- If asked about sensitive topics, redirect toward positive discussions\n" ++
  "- Never provide information that could be harmful or dangerous\n"

/-- The fixed REMEMBER closing block. -/
def rememberBlock : String :=
  "\nREMEMBER: You are a Christian mentor helping a teenager grow in wisdom, knowledge, and character. Every response should reflect Christ\x27s love and point toward godly living."

/-- AIService.buildSystemPrompt, mirroring the successive appends of the
source (systemPrompt += ...). -/
def buildSystemPrompt (customGPT : CustomGPT) (pc : ParentalControls) : String :=
  let p1 := customGPT.system_prompt ++ "\n\n"
  let p2 := p1 ++ "THEOLOGICAL PERSPECTIVE: " ++ pc.theological_perspective ++ "\n"
  let p3 :=
    if tvLookup customGPT.theological_values "biblical_authority" = some "high" then
      p2 ++ "- You hold the Bible as the ultimate authority for faith and life.\n"
    else p2
  let p4 :=
    if tvLookup customGPT.theological_values "creation_vs_evolution" = some "young_earth_creationism" then
      p3 ++ "- You believe in young earth creationism and God\x27s direct creation of all things.\n"
    else p3
  let p5 :=
    if tvLookup customGPT.theological_values "moral_framework" = some "biblical" then
      p4 ++ "- Your moral guidance is rooted in biblical principles and Christ-like character.\n"
    else p4
  let p6 := p5 ++ contentGuidelinesBlock
  let p7 :=
    if 0 < pc.allowed_topics.length then
      p6 ++ "- Focus on these approved topics: " ++ String.intercalate ", " pc.allowed_topics ++ "\n"
    else p6
  let traits := customGPT.personality_traits.splitOn ","
  let p8 := p7 ++ "\nPERSONALITY: Be " ++ String.intercalate ", " traits ++ " in all interactions.\n"
  p8 ++ rememberBlock

/-! ### Response generation (AIService.generateResponse) -/

/-- Result shape of AIService.generateResponse. -/
structure AIResponse where
  content : String
  isSafe : Bool
  flagReason : Option String
  alertType : Option String
deriving DecidableEq

/-- Outcome of the external completion call: `failure` is the catch path
(network error or thrown non-ok status); `success c` is an ok response
whose first choice carried message content `c` (none when absent). -/
inductive Upstream where
  | failure
  | success (content : Option String)

/-- The JS `|| default` apology for a missing or empty choice. -/
def apologyDefault : String :=
  "I apologize, but I encountered an error. Please try asking your question again."

/-- `data.choices[0]?.message?.content || apologyDefault`: a missing or
empty upstream text is replaced by the apology default. -/
def upstreamText (c : Option String) : String :=
  match c with
  | none => apologyDefault
  | some s => if s = "" then apologyDefault else s

/-- generateResponse result paired with whether the external completion
request was issued (the fetch is only reached on the safe-input path). -/
structure GenResult where
  resp : AIResponse
  calledUpstream : Bool

/-- AIService.generateResponse with the upstream call made explicit.
The unsafe-input branch returns the safety template before any request;
on upstream failure the local fallback is used; on success the returned
text is re-screened, and if unsafe the reply is replaced by
generateSafetyResponse "inappropriate_content".  The history argument
only feeds the upstream request body, which the Upstream outcome
abstracts. -/
def generateResponseT (message : String) (customGPT : CustomGPT) (pc : ParentalControls)
    (history : List (String × String)) (upstream : Upstream) : GenResult :=
  let safetyCheck := checkAdvancedContentSafety message pc
  if safetyCheck.isSafe then
    match upstream with
    | Upstream.failure =>
        { resp := { content := generateFallbackResponse message customGPT,
                    isSafe := true, flagReason := none, alertType := none },
          calledUpstream := true }
    | Upstream.success c =>
        let aiContent := upstreamText c
        let responseCheck := checkAdvancedContentSafety aiContent pc
        { resp := { content := if responseCheck.isSafe then aiContent
                               else generateSafetyResponse "inappropriate_content",
                    isSafe := responseCheck.isSafe,
                    flagReason := responseCheck.flagReason,
                    alertType := responseCheck.alertType },
          calledUpstream := true }
  else
    { resp := { content := generateSafetyResponse (safetyCheck.alertType.getD ""),
                isSafe := false,
                flagReason := safetyCheck.flagReason,
                alertType := safetyCheck.alertType },
      calledUpstream := false }

/-- AIService.generateResponse (the returned AIResponse). -/
def generateResponse (message : String) (customGPT : CustomGPT) (pc : ParentalControls)
    (history : List (String × String)) (upstream : Upstream) : AIResponse :=
  (generateResponseT message customGPT pc history upstream).resp

/-! ### Message route (index.tsx POST /api/conversations/:conversationId/messages) -/

/-- parental_controls row fields used by the route: the classifier
configuration plus the alerting toggle. -/
structure PCRow where
  controls : ParentalControls
  safety_alerts_enabled : Bool

/-- A persisted message row (ids and timestamps omitted).  createMessage
defaults is_flagged to false and flag_reason to null when absent. -/
structure MessageRecord where
  role : String
  content : String
  isFlagged : Bool
  flagReason : Option String
deriving DecidableEq

/-- A persisted safety_alerts row (ids omitted). -/
structure AlertRecord where
  parentId : String
  alertType : String
  alertReason : String
deriving DecidableEq

/-- Observable outcome of one handled turn. -/
structure TurnOutcome where
  status : Nat
  reply : Option String
  userMessage : Option MessageRecord
  assistantMessage : Option MessageRecord
  alerts : List AlertRecord

/-- The if/else block of the route computing
(aiResponse, isFlagged, flagReason, alertType): with an API key the
AIService result is used (isFlagged = !aiResult.isSafe); without one, the
simple content check runs and the enhanced fallback generates the reply. -/
def turnStep (content : String) (pc : ParentalControls) (gpt : CustomGPT)
    (hasApiKey : Bool) (history : List (String × String)) (upstream : Upstream) :
    String × Bool × Option String × Option String :=
  if hasApiKey then
    let aiResult := generateResponse content gpt pc history upstream
    (aiResult.content, !aiResult.isSafe, aiResult.flagReason, aiResult.alertType)
  else
    let safetyCheck := checkContentSafety content pc
    let isFlagged := !safetyCheck.isSafe
    (generateEnhancedFallback content isFlagged, isFlagged,
     safetyCheck.flagReason, safetyCheck.alertType)

/-- The message-posting route body from the parental-controls fetch on
(lines 534-628 of index.tsx), for an authenticated teen whose conversation
exists and whose message content is non-empty.  parentId is user.parent_id;
hasApiKey selects the AIService path versus the checkContentSafety +
generateEnhancedFallback path; persistence is modelled as always
succeeding.  The safety alert is written before the two messages, at most
once, and the assistant message is persisted without flag fields. -/
def handleTurn (content : String) (pcRow? : Option PCRow) (parentId? : Option String)
    (gpt : CustomGPT) (hasApiKey : Bool) (history : List (String × String))
    (upstream : Upstream) : TurnOutcome :=
  match pcRow? with
  | none =>
      { status := 400, reply := none, userMessage := none, assistantMessage := none, alerts := [] }
  | some pcRow =>
      let step := turnStep content pcRow.controls gpt hasApiKey history upstream
      let aiResponse := step.1
      let isFlagged := step.2.1
      let flagReason := step.2.2.1
      let alertType := step.2.2.2
      let alerts :=
        match parentId? with
        | some parentId =>
            if isFlagged && pcRow.safety_alerts_enabled then
              [{ parentId := parentId, alertType := alertType.getD "",
                 alertReason := flagReason.getD "" }]
            else []
        | none => []
      { status := 200,
        reply := some aiResponse,
        userMessage := some { role := "user", content := content,
                              isFlagged := isFlagged, flagReason := flagReason },
        assistantMessage := some { role := "assistant", content := aiResponse,
                                   isFlagged := false, flagReason := none },
        alerts := alerts }

/-! ### Example configurations used by witnesses and counterexamples -/

/-- Controls with moderate filter and no blocked keywords. -/
def pcBasic : ParentalControls :=
  { theological_perspective := "conservative-christian", content_filter_level := "moderate",
    allowed_topics := [], blocked_keywords := [] }

/-- Controls with strict filter and the blocked keyword "violence". -/
def pcStrict : ParentalControls :=
  { theological_perspective := "conservative-christian", content_filter_level := "strict",
    allowed_topics := [], blocked_keywords := ["violence"] }

/-- Controls with moderate filter and the blocked keyword "violence". -/
def pcViolence : ParentalControls :=
  { theological_perspective := "conservative-christian", content_filter_level := "moderate",
    allowed_topics := [], blocked_keywords := ["violence"] }

/-- A parental_controls row with alerting enabled. -/
def pcRowBasic : PCRow := { controls := pcBasic, safety_alerts_enabled := true }

/-- A sample custom GPT. -/
def gptEx : CustomGPT :=
  { id := "gpt_1", name := "Biblical Wisdom Tutor", system_prompt := "You are a tutor.",
    theological_values := [("biblical_authority", "high")],
    personality_traits := "encouraging,wise" }

/-! ### Helper lemmas -/

/-- If some element satisfies the predicate, find? returns one. -/
theorem find?_isSome_of_any {a : Type} (l : List a) (f : a → Bool) (h : l.any f = true) :
    ∃ x, l.find? f = some x := by
  cases hf : l.find? f with
  | some x => exact ⟨x, rfl⟩
  | none =>
      rw [List.find?_eq_none] at hf
      rw [List.any_eq_true] at h
      obtain ⟨x, hx, hfx⟩ := h
      exact absurd hfx (hf x hx)

/-- If no element satisfies the predicate, find? returns none. -/
theorem find?_eq_none_of_any_false {a : Type} (l : List a) (f : a → Bool) (h : l.any f = false) :
    l.find? f = none := by
  rw [List.find?_eq_none]
  intro x hx hfx
  rw [List.any_eq_false] at h
  exact h x hx hfx

/-- A three-part append with a fixed non-empty head is non-empty. -/
theorem append3_ne_empty (a b c : String) (ha : a ≠ "") : a ++ b ++ c ≠ "" := by
  intro h
  apply ha
  have hlen := congrArg String.length h
  rw [String.length_append, String.length_append] at hlen
  have h0 : ("" : String).length = 0 := rfl
  rw [h0] at hlen
  have : a.length = 0 := by omega
  cases a with
  | mk da => cases da with
    | nil => rfl
    | cons c cs => simp [String.length] at this

/-! ### Claims -/

/-- C1: for every input text and rules, a text matching a self-harm pattern is
classified self_harm by both checkAdvancedContentSafety and checkContentSafety,
even when it also matches a configured blocked keyword or a dangerous-behavior
pattern; each classifier evaluates its category stages in the fixed priority
order self-harm, dangerous-behavior, blocked-keyword, filter-level (the last
present only in checkAdvancedContentSafety), returning on the first match. -/
theorem claim_C1 (content : String) (pc : ParentalControls) :
    (matchesAnySelfHarm content = true →
       (checkAdvancedContentSafety content pc).isSafe = false
       ∧ (checkAdvancedContentSafety content pc).alertType = some "self_harm")
  ∧ (matchesBasicSelfHarm content = true →
       (checkContentSafety content pc).isSafe = false
       ∧ (checkContentSafety content pc).alertType = some "self_harm")
  ∧ (matchesAnySelfHarm content = false → matchesAnyDangerous content = true →
       (checkAdvancedContentSafety content pc).alertType = some "dangerous_behavior")
  ∧ (matchesAnySelfHarm content = false → matchesAnyDangerous content = false →
       matchesBlocked content pc = true →
       (checkAdvancedContentSafety content pc).alertType = some "blocked_keyword")
  ∧ (matchesAnySelfHarm content = false → matchesAnyDangerous content = false →
       matchesBlocked content pc = false → pc.content_filter_level = "strict" →
       matchesAnyStrict content = true →
       (checkAdvancedContentSafety content pc).alertType = some "inappropriate_content")
  ∧ (matchesAnySelfHarm content = false → matchesAnyDangerous content = false →
       matchesBlocked content pc = false →
       (pc.content_filter_level = "strict" → matchesAnyStrict content = false) →
       (checkAdvancedContentSafety content pc).isSafe = true)
  ∧ (matchesBasicSelfHarm content = false → matchesBasicDanger content = true →
       (checkContentSafety content pc).alertType = some "dangerous_behavior")
  ∧ (matchesBasicSelfHarm content = false → matchesBasicDanger content = false →
       matchesBlocked content pc = true →
       (checkContentSafety content pc).alertType = some "blocked_keyword")
  ∧ (matchesBasicSelfHarm content = false → matchesBasicDanger content = false →
       matchesBlocked content pc = false →
       (checkContentSafety content pc).isSafe = true) := by
  refine ⟨?_, ?_, ?_, ?_, ?_, ?_, ?_, ?_, ?_⟩
  · intro h
    obtain ⟨p, hp⟩ := find?_isSome_of_any _ _ h
    simp [checkAdvancedContentSafety, hp]
  · intro h
    obtain ⟨k, hk⟩ := find?_isSome_of_any _ _ h
    simp [checkContentSafety, hk]
  · intro h1 h2
    have h1n := find?_eq_none_of_any_false _ _ h1
    obtain ⟨p, hp⟩ := find?_isSome_of_any _ _ h2
    simp [checkAdvancedContentSafety, h1n, hp]
  · intro h1 h2 h3
    have h1n := find?_eq_none_of_any_false _ _ h1
    have h2n := find?_eq_none_of_any_false _ _ h2
    obtain ⟨k, hk⟩ := find?_isSome_of_any _ _ h3
    simp [checkAdvancedContentSafety, h1n, h2n, hk]
  · intro h1 h2 h3 h4 h5
    have h1n := find?_eq_none_of_any_false _ _ h1
    have h2n := find?_eq_none_of_any_false _ _ h2
    have h3n := find?_eq_none_of_any_false _ _ h3
    obtain ⟨p, hp⟩ := find?_isSome_of_any _ _ h5
    simp [checkAdvancedContentSafety, h1n, h2n, h3n, h4, hp]
  · intro h1 h2 h3 h4
    have h1n := find?_eq_none_of_any_false _ _ h1
    have h2n := find?_eq_none_of_any_false _ _ h2
    have h3n := find?_eq_none_of_any_false _ _ h3
    by_cases hs : pc.content_filter_level = "strict"
    · have h4n := find?_eq_none_of_any_false _ _ (h4 hs)
      simp [checkAdvancedContentSafety, h1n, h2n, h3n, hs, h4n]
    · simp [checkAdvancedContentSafety, h1n, h2n, h3n, hs]
  · intro h1 h2
    have h1n := find?_eq_none_of_any_false _ _ h1
    obtain ⟨k, hk⟩ := find?_isSome_of_any _ _ h2
    simp [checkContentSafety, h1n, hk]
  · intro h1 h2 h3
    have h1n := find?_eq_none_of_any_false _ _ h1
    have h2n := find?_eq_none_of_any_false _ _ h2
    obtain ⟨k, hk⟩ := find?_isSome_of_any _ _ h3
    simp [checkContentSafety, h1n, h2n, hk]
  · intro h1 h2 h3
    have h1n := find?_eq_none_of_any_false _ _ h1
    have h2n := find?_eq_none_of_any_false _ _ h2
    have h3n := find?_eq_none_of_any_false _ _ h3
    simp [checkContentSafety, h1n, h2n, h3n]

/-- C1 witness: "violence: I want to kill myself" matches a self-harm
pattern, a dangerous-behavior pattern, and the configured blocked keyword
"violence", and both classifiers report self_harm. -/
theorem claim_C1_witness :
    matchesAnySelfHarm "violence: I want to kill myself" = true
    ∧ matchesBasicSelfHarm "violence: I want to kill myself" = true
    ∧ matchesAnyDangerous "violence: I want to kill myself" = true
    ∧ matchesBlocked "violence: I want to kill myself" pcViolence = true
    ∧ (checkAdvancedContentSafety "violence: I want to kill myself" pcViolence).alertType
        = some "self_harm"
    ∧ (checkContentSafety "violence: I want to kill myself" pcViolence).alertType
        = some "self_harm" :=
  ⟨by decide, by decide, by decide, by decide,
   ((claim_C1 "violence: I want to kill myself" pcViolence).1 (by decide)).2,
   ((claim_C1 "violence: I want to kill myself" pcViolence).2.1 (by decide)).2⟩

/-- Well-formedness of checkAdvancedContentSafety results. -/
theorem advanced_wellformed (content : String) (pc : ParentalControls) :
    ((checkAdvancedContentSafety content pc).isSafe = true →
       (checkAdvancedContentSafety content pc).flagReason = none
       ∧ (checkAdvancedContentSafety content pc).alertType = none)
  ∧ ((checkAdvancedContentSafety content pc).isSafe = false →
       (∃ r, (checkAdvancedContentSafety content pc).flagReason = some r ∧ r ≠ "")
       ∧ ∃ a, (checkAdvancedContentSafety content pc).alertType = some a
           ∧ (a = "self_harm" ∨ a = "dangerous_behavior" ∨ a = "blocked_keyword"
              ∨ a = "inappropriate_content")) := by
  unfold checkAdvancedContentSafety
  cases h1 : selfHarmPatterns.find? (fun p => reTest p.1 content) with
  | some p =>
      exact ⟨fun h => by simp at h,
             fun _ => ⟨⟨_, rfl, append3_ne_empty _ _ _ (by decide)⟩,
                       ⟨"self_harm", rfl, Or.inl rfl⟩⟩⟩
  | none =>
  cases h2 : dangerousPatterns.find? (fun p => reTest p.1 content) with
  | some p =>
      exact ⟨fun h => by simp at h,
             fun _ => ⟨⟨_, rfl, append3_ne_empty _ _ _ (by decide)⟩,
                       ⟨"dangerous_behavior", rfl, Or.inr (Or.inl rfl)⟩⟩⟩
  | none =>
  cases h3 : pc.blocked_keywords.find? (fun k => includesLower content k) with
  | some k =>
      exact ⟨fun h => by simp at h,
             fun _ => ⟨⟨_, rfl, append3_ne_empty _ _ _ (by decide)⟩,
                       ⟨"blocked_keyword", rfl, Or.inr (Or.inr (Or.inl rfl))⟩⟩⟩
  | none =>
  by_cases hs : pc.content_filter_level = "strict"
  · rw [if_pos hs]
    cases h4 : strictPatterns.find? (fun p => reTest p.1 content) with
    | some p =>
        exact ⟨fun h => by simp at h,
               fun _ => ⟨⟨_, rfl, append3_ne_empty _ _ _ (by decide)⟩,
                         ⟨"inappropriate_content", rfl, Or.inr (Or.inr (Or.inr rfl))⟩⟩⟩
    | none => exact ⟨fun _ => ⟨rfl, rfl⟩, fun h => by simp at h⟩
  · rw [if_neg hs]
    exact ⟨fun _ => ⟨rfl, rfl⟩, fun h => by simp at h⟩

/-- Well-formedness of checkContentSafety results. -/
theorem basic_wellformed (content : String) (pc : ParentalControls) :
    ((checkContentSafety content pc).isSafe = true →
       (checkContentSafety content pc).flagReason = none
       ∧ (checkContentSafety content pc).alertType = none)
  ∧ ((checkContentSafety content pc).isSafe = false →
       (∃ r, (checkContentSafety content pc).flagReason = some r ∧ r ≠ "")
       ∧ ∃ a, (checkContentSafety content pc).alertType = some a
           ∧ (a = "self_harm" ∨ a = "dangerous_behavior" ∨ a = "blocked_keyword"
              ∨ a = "inappropriate_content")) := by
  unfold checkContentSafety
  cases h1 : selfHarmKeywords.find? (fun k => lowerIncludes content k) with
  | some k =>
      exact ⟨fun h => by simp at h,
             fun _ => ⟨⟨_, rfl, append3_ne_empty _ _ _ (by decide)⟩,
                       ⟨"self_harm", rfl, Or.inl rfl⟩⟩⟩
  | none =>
  cases h2 : dangerKeywords.find? (fun k => lowerIncludes content k) with
  | some k =>
      exact ⟨fun h => by simp at h,
             fun _ => ⟨⟨_, rfl, append3_ne_empty _ _ _ (by decide)⟩,
                       ⟨"dangerous_behavior", rfl, Or.inr (Or.inl rfl)⟩⟩⟩
  | none =>
  cases h3 : pc.blocked_keywords.find? (fun k => includesLower content k) with
  | some k =>
      exact ⟨fun h => by simp at h,
             fun _ => ⟨⟨_, rfl, append3_ne_empty _ _ _ (by decide)⟩,
                       ⟨"blocked_keyword", rfl, Or.inr (Or.inr (Or.inl rfl))⟩⟩⟩
  | none => exact ⟨fun _ => ⟨rfl, rfl⟩, fun h => by simp at h⟩

/-- C10: classifier results are well-formed: for every input text and rules,
each classifier returns either safe with no flag reason and no alert type,
or unsafe with a non-empty flag reason and an alert type drawn from the
fixed set self_harm, dangerous_behavior, blocked_keyword,
inappropriate_content; an unsafe result never lacks the category needed for
template and alert selection. -/
theorem claim_C10 (content : String) (pc : ParentalControls) :
    ((checkAdvancedContentSafety content pc).isSafe = true →
       (checkAdvancedContentSafety content pc).flagReason = none
       ∧ (checkAdvancedContentSafety content pc).alertType = none)
  ∧ ((checkAdvancedContentSafety content pc).isSafe = false →
       (∃ r, (checkAdvancedContentSafety content pc).flagReason = some r ∧ r ≠ "")
       ∧ ∃ a, (checkAdvancedContentSafety content pc).alertType = some a
           ∧ (a = "self_harm" ∨ a = "dangerous_behavior" ∨ a = "blocked_keyword"
              ∨ a = "inappropriate_content"))
  ∧ ((checkContentSafety content pc).isSafe = true →
       (checkContentSafety content pc).flagReason = none
       ∧ (checkContentSafety content pc).alertType = none)
  ∧ ((checkContentSafety content pc).isSafe = false →
       (∃ r, (checkContentSafety content pc).flagReason = some r ∧ r ≠ "")
       ∧ ∃ a, (checkContentSafety content pc).alertType = some a
           ∧ (a = "self_harm" ∨ a = "dangerous_behavior" ∨ a = "blocked_keyword"
              ∨ a = "inappropriate_content")) :=
  ⟨(advanced_wellformed content pc).1, (advanced_wellformed content pc).2,
   (basic_wellformed content pc).1, (basic_wellformed content pc).2⟩

/-- C10 witness: a safe input has no flag fields; the unsafe input
"suicide" has a non-empty reason and category self_harm. -/
theorem claim_C10_witness :
    ((checkAdvancedContentSafety "hello there" pcBasic).flagReason = none
      ∧ (checkAdvancedContentSafety "hello there" pcBasic).alertType = none)
    ∧ ((∃ r, (checkAdvancedContentSafety "suicide" pcBasic).flagReason = some r ∧ r ≠ "")
      ∧ ∃ a, (checkAdvancedContentSafety "suicide" pcBasic).alertType = some a
          ∧ (a = "self_harm" ∨ a = "dangerous_behavior" ∨ a = "blocked_keyword"
             ∨ a = "inappropriate_content")) :=
  ⟨(claim_C10 "hello there" pcBasic).1 (by decide),
   (claim_C10 "suicide" pcBasic).2.1 (by decide)⟩

/-- C7: for every input text classified unsafe, generateResponse never
issues the external completion call: it returns the matching category
safety-response template, with isSafe false and the category as alertType,
before any upstream request is made. -/
theorem claim_C7 (message : String) (gpt : CustomGPT) (pc : ParentalControls)
    (history : List (String × String)) (upstream : Upstream)
    (h : (checkAdvancedContentSafety message pc).isSafe = false) :
    (generateResponseT message gpt pc history upstream).calledUpstream = false
  ∧ (generateResponseT message gpt pc history upstream).resp.content
      = generateSafetyResponse ((checkAdvancedContentSafety message pc).alertType.getD "")
  ∧ (generateResponseT message gpt pc history upstream).resp.isSafe = false
  ∧ (generateResponseT message gpt pc history upstream).resp.alertType
      = (checkAdvancedContentSafety message pc).alertType
  ∧ (generateResponseT message gpt pc history upstream).resp.flagReason
      = (checkAdvancedContentSafety message pc).flagReason := by
  refine ⟨?_, ?_, ?_, ?_, ?_⟩ <;> simp [generateResponseT, h]

/-- C7 witness: the self-harm input is answered by the self_harm template
with no upstream call, whatever the upstream would have returned. -/
theorem claim_C7_witness :
    (checkAdvancedContentSafety "I want to kill myself" pcBasic).isSafe = false
    ∧ (generateResponseT "I want to kill myself" gptEx pcBasic [] Upstream.failure).calledUpstream
        = false
    ∧ (generateResponseT "I want to kill myself" gptEx pcBasic [] Upstream.failure).resp.content
        = generateSafetyResponse "self_harm" := by
  have h : (checkAdvancedContentSafety "I want to kill myself" pcBasic).isSafe = false := by
    decide
  have h2 := claim_C7 "I want to kill myself" gptEx pcBasic [] Upstream.failure h
  refine ⟨h, h2.1, ?_⟩
  have h3 := h2.2.1
  have h4 : (checkAdvancedContentSafety "I want to kill myself" pcBasic).alertType.getD ""
      = "self_harm" := by decide
  rw [h4] at h3
  exact h3

/-- C2 counterexample: with a safe user message, an upstream reply that the
output screening classifies self_harm is replaced by the
inappropriate_content template, not the self_harm template: on the
output-screening path the category-to-template mapping is not 1:1. -/
theorem claim_C2_counterexample :
    (checkAdvancedContentSafety "hello there" pcBasic).isSafe = true
    ∧ (generateResponse "hello there" gptEx pcBasic []
         (Upstream.success (some "I want to kill myself"))).alertType = some "self_harm"
    ∧ (generateResponse "hello there" gptEx pcBasic []
         (Upstream.success (some "I want to kill myself"))).content
        = generateSafetyResponse "inappropriate_content"
    ∧ generateSafetyResponse "inappropriate_content" ≠ generateSafetyResponse "self_harm" := by
  refine ⟨by decide, by decide, by decide, by decide⟩

/-- C2 amended: when the upstream completion succeeds and the non-empty
returned text is classified safe, it is returned verbatim; when it is
classified unsafe (with any category), the final reply is always the
inappropriate_content safety template, not the template of the detected
category. -/
theorem claim_C2 (message s : String) (gpt : CustomGPT) (pc : ParentalControls)
    (history : List (String × String)) (hne : s ≠ "")
    (hin : (checkAdvancedContentSafety message pc).isSafe = true) :
    ((checkAdvancedContentSafety s pc).isSafe = true →
       (generateResponse message gpt pc history (Upstream.success (some s))).content = s
       ∧ (generateResponse message gpt pc history (Upstream.success (some s))).isSafe = true)
  ∧ ((checkAdvancedContentSafety s pc).isSafe = false →
       (generateResponse message gpt pc history (Upstream.success (some s))).content
         = generateSafetyResponse "inappropriate_content"
       ∧ (generateResponse message gpt pc history (Upstream.success (some s))).isSafe = false) := by
  constructor
  · intro hs
    constructor <;> simp [generateResponse, generateResponseT, upstreamText, hin, hne, hs]
  · intro hs
    constructor <;> simp [generateResponse, generateResponseT, upstreamText, hin, hne, hs]

/-- C2 witness: a safe upstream reply is passed through verbatim; an unsafe
one is replaced by the inappropriate_content template. -/
theorem claim_C2_witness :
    (generateResponse "hello there" gptEx pcBasic []
       (Upstream.success (some "Here is some help."))).content = "Here is some help."
    ∧ (generateResponse "hello there" gptEx pcBasic []
         (Upstream.success (some "I want to kill myself"))).isSafe = false :=
  ⟨((claim_C2 "hello there" "Here is some help." gptEx pcBasic [] (by decide) (by decide)).1
      (by decide)).1,
   ((claim_C2 "hello there" "I want to kill myself" gptEx pcBasic [] (by decide) (by decide)).2
      (by decide)).2⟩

/-- C6 counterexample: for the safe input "algebra", the with-credential
fallback (AIService.generateFallbackResponse, used when the upstream call
fails) returns the generic default template, not the mathematics template;
only the no-credential generateEnhancedFallback maps "algebra" to the
mathematics template. -/
theorem claim_C6_counterexample :
    lowerIncludes "algebra" "algebra" = true
    ∧ (checkAdvancedContentSafety "algebra" pcBasic).isSafe = true
    ∧ (generateResponse "algebra" gptEx pcBasic [] Upstream.failure).content = fbDefault
    ∧ fbDefault ≠ fbAcademic
    ∧ generateEnhancedFallback "algebra" false = efMath := by
  refine ⟨by decide, by decide, by decide, by decide, by decide⟩

/-- C6 amended: on upstream failure the reply is the deterministic keyword
dispatch of the respective fallback generator; a safe input containing
"algebra" gets the mathematics template from the no-credential
generateEnhancedFallback, while AIService.generateFallbackResponse (the
with-credential failure path) dispatches on math/homework/study (and its
other keyword sets) and yields its default template for such an input. -/
theorem claim_C6 (content : String) (gpt : CustomGPT) (pc : ParentalControls)
    (history : List (String × String))
    (halg : lowerIncludes content "algebra" = true)
    (hmath : (lowerIncludes content "math" || lowerIncludes content "homework"
              || lowerIncludes content "study") = false)
    (hfaith : (lowerIncludes content "bible" || lowerIncludes content "god"
              || lowerIncludes content "jesus" || lowerIncludes content "faith") = false)
    (hadvice : (lowerIncludes content "advice" || lowerIncludes content "help"
              || lowerIncludes content "problem") = false)
    (hsafe : (checkAdvancedContentSafety content pc).isSafe = true) :
    generateEnhancedFallback content false = efMath
  ∧ generateFallbackResponse content gpt = fbDefault
  ∧ (generateResponse content gpt pc history Upstream.failure).content
      = generateFallbackResponse content gpt
  ∧ (generateResponse content gpt pc history Upstream.failure).isSafe = true := by
  refine ⟨?_, ?_, ?_, ?_⟩
  · simp [generateEnhancedFallback, halg]
  · simp [generateFallbackResponse, hmath, hfaith, hadvice]
  · simp [generateResponse, generateResponseT, hsafe]
  · simp [generateResponse, generateResponseT, hsafe]

/-- C6 witness: the input "algebra" itself. -/
theorem claim_C6_witness :
    generateEnhancedFallback "algebra" false = efMath
    ∧ generateFallbackResponse "algebra" gptEx = fbDefault :=
  ⟨(claim_C6 "algebra" gptEx pcBasic [] (by decide) (by decide) (by decide) (by decide)
      (by decide)).1,
   (claim_C6 "algebra" gptEx pcBasic [] (by decide) (by decide) (by decide) (by decide)
      (by decide)).2.1⟩

/-- C4 counterexample: at strict filter level the age-sensitive input
"dating" is flagged inappropriate_content by checkAdvancedContentSafety but
passes the no-credential checkContentSafety as safe: the
filter-level stage does not exist on every classification path. -/
theorem claim_C4_counterexample :
    matchesAnyStrict "dating" = true
    ∧ pcStrict.content_filter_level = "strict"
    ∧ (checkAdvancedContentSafety "dating" pcStrict).alertType = some "inappropriate_content"
    ∧ (checkContentSafety "dating" pcStrict).isSafe = true := by
  refine ⟨by decide, by decide, by decide, by decide⟩

/-- C4 amended: for text matching an age-sensitive pattern and no
higher-priority category, checkAdvancedContentSafety returns
inappropriate_content at strict filter level and safe otherwise; the
no-credential checkContentSafety ignores the filter level entirely
(its result is identical for every level, and such text is safe there
whenever it trips none of its keyword stages). -/
theorem claim_C4 (content : String) (pc : ParentalControls)
    (h1 : matchesAnySelfHarm content = false)
    (h2 : matchesAnyDangerous content = false)
    (h3 : matchesBlocked content pc = false)
    (h4 : matchesAnyStrict content = true) :
    (pc.content_filter_level = "strict" →
       (checkAdvancedContentSafety content pc).isSafe = false
       ∧ (checkAdvancedContentSafety content pc).alertType = some "inappropriate_content")
  ∧ (pc.content_filter_level ≠ "strict" →
       (checkAdvancedContentSafety content pc).isSafe = true)
  ∧ (∀ lvl : String,
       checkContentSafety content { pc with content_filter_level := lvl }
         = checkContentSafety content pc)
  ∧ (matchesBasicSelfHarm content = false → matchesBasicDanger content = false →
       (checkContentSafety content pc).isSafe = true) := by
  have h1n := find?_eq_none_of_any_false _ _ h1
  have h2n := find?_eq_none_of_any_false _ _ h2
  have h3n := find?_eq_none_of_any_false _ _ h3
  refine ⟨?_, ?_, fun lvl => rfl, ?_⟩
  · intro hs
    obtain ⟨p, hp⟩ := find?_isSome_of_any _ _ h4
    constructor <;> simp [checkAdvancedContentSafety, h1n, h2n, h3n, hs, hp]
  · intro hs
    simp [checkAdvancedContentSafety, h1n, h2n, h3n, hs]
  · intro hb1 hb2
    have hb1n := find?_eq_none_of_any_false _ _ hb1
    have hb2n := find?_eq_none_of_any_false _ _ hb2
    simp [checkContentSafety, hb1n, hb2n, h3n]

/-- C4 witness: "dating" at strict and at basic filter level. -/
theorem claim_C4_witness :
    (checkAdvancedContentSafety "dating" pcStrict).alertType = some "inappropriate_content"
    ∧ (checkAdvancedContentSafety "dating" pcBasic).isSafe = true
    ∧ (checkContentSafety "dating" pcStrict).isSafe = true :=
  ⟨((claim_C4 "dating" pcStrict (by decide) (by decide) (by decide) (by decide)).1
      (by decide)).2,
   (claim_C4 "dating" pcBasic (by decide) (by decide) (by decide) (by decide)).2.1
      (by decide),
   (claim_C4 "dating" pcStrict (by decide) (by decide) (by decide) (by decide)).2.2.2
      (by decide) (by decide)⟩

/-- C8: buildSystemPrompt is a pure deterministic function: identical
arguments give identical output, and the output is exactly the raw
instruction text, the perspective header, one clause per recognized truthy
value flag (unknown flags are ignored by the lookups), the fixed
content-safety directives, the allowed-topics list when non-empty, the
comma-joined personality traits, and the closing block, in this order. -/
theorem claim_C8 (gpt gpt2 : CustomGPT) (pc pc2 : ParentalControls)
    (hg : gpt = gpt2) (hp : pc = pc2) :
    buildSystemPrompt gpt pc = buildSystemPrompt gpt2 pc2
  ∧ buildSystemPrompt gpt pc =
      gpt.system_prompt ++ "\n\n"
      ++ "THEOLOGICAL PERSPECTIVE: " ++ pc.theological_perspective ++ "\n"
      ++ (if tvLookup gpt.theological_values "biblical_authority" = some "high" then
            "- You hold the Bible as the ultimate authority for faith and life.\n" else "")
      ++ (if tvLookup gpt.theological_values "creation_vs_evolution"
            = some "young_earth_creationism" then
            "- You believe in young earth creationism and God\x27s direct creation of all things.\n"
          else "")
      ++ (if tvLookup gpt.theological_values "moral_framework" = some "biblical" then
            "- Your moral guidance is rooted in biblical principles and Christ-like character.\n"
          else "")
      ++ contentGuidelinesBlock
      ++ (if 0 < pc.allowed_topics.length then
            "- Focus on these approved topics: "
              ++ String.intercalate ", " pc.allowed_topics ++ "\n"
          else "")
      ++ "\nPERSONALITY: Be "
      ++ String.intercalate ", " (gpt.personality_traits.splitOn ",")
      ++ " in all interactions.\n"
      ++ rememberBlock := by
  subst hg
  subst hp
  refine ⟨rfl, ?_⟩
  unfold buildSystemPrompt
  by_cases hb : tvLookup gpt.theological_values "biblical_authority" = some "high" <;>
  by_cases hc : tvLookup gpt.theological_values "creation_vs_evolution"
      = some "young_earth_creationism" <;>
  by_cases hm : tvLookup gpt.theological_values "moral_framework" = some "biblical" <;>
  by_cases ht : 0 < pc.allowed_topics.length <;>
  simp [hb, hc, hm, ht, String.append_assoc, String.append_empty, String.empty_append]

/-- C8 witness: the sample configuration. -/
theorem claim_C8_witness :
    buildSystemPrompt gptEx pcBasic = buildSystemPrompt gptEx pcBasic :=
  (claim_C8 gptEx gptEx pcBasic pcBasic rfl rfl).1

/-- Every safety-response template is non-empty. -/
theorem generateSafetyResponse_ne_empty (a : String) : generateSafetyResponse a ≠ "" := by
  unfold generateSafetyResponse
  repeat' split
  all_goals decide

/-- Every AIService fallback template is non-empty. -/
theorem generateFallbackResponse_ne_empty (m : String) (g : CustomGPT) :
    generateFallbackResponse m g ≠ "" := by
  unfold generateFallbackResponse
  repeat' split
  all_goals decide

/-- Every enhanced-fallback template is non-empty. -/
theorem generateEnhancedFallback_ne_empty (c : String) (f : Bool) :
    generateEnhancedFallback c f ≠ "" := by
  unfold generateEnhancedFallback
  repeat' split
  all_goals decide

/-- The upstream text after the apology default is never empty. -/
theorem upstreamText_ne_empty (c : Option String) : upstreamText c ≠ "" := by
  cases c with
  | none =>
      simp only [upstreamText]
      decide
  | some s =>
      simp only [upstreamText]
      by_cases hse : s = ""
      · rw [if_pos hse]
        decide
      · rw [if_neg hse]
        exact hse

/-- generateResponse always returns non-empty content. -/
theorem generateResponse_content_ne_empty (m : String) (g : CustomGPT)
    (pc : ParentalControls) (h : List (String × String)) (u : Upstream) :
    (generateResponse m g pc h u).content ≠ "" := by
  unfold generateResponse generateResponseT
  by_cases hs : (checkAdvancedContentSafety m pc).isSafe = true
  · rw [if_pos hs]
    cases u with
    | failure => exact generateFallbackResponse_ne_empty m g
    | success c =>
        have key : (if (checkAdvancedContentSafety (upstreamText c) pc).isSafe = true
              then upstreamText c
              else generateSafetyResponse "inappropriate_content") ≠ "" := by
          split
          · exact upstreamText_ne_empty c
          · exact generateSafetyResponse_ne_empty _
        exact key
  · rw [if_neg hs]
    exact generateSafetyResponse_ne_empty _

/-- The reply text of the route is non-empty on every branch. -/
theorem turnStep_reply_ne_empty (content : String) (pc : ParentalControls)
    (gpt : CustomGPT) (hasApiKey : Bool) (history : List (String × String))
    (upstream : Upstream) :
    (turnStep content pc gpt hasApiKey history upstream).1 ≠ "" := by
  unfold turnStep
  cases hasApiKey with
  | true => simpa using generateResponse_content_ne_empty content gpt pc history upstream
  | false => simpa using generateEnhancedFallback_ne_empty content _

/-- C9: if no parental-controls record exists, the turn is refused with a
configuration error (status 400) and nothing is generated or persisted; in
every other handled case the reply is non-empty, whatever the upstream
outcome (upstream failures are never surfaced as errors). -/
theorem claim_C9 (content : String) (pcRow? : Option PCRow) (parentId? : Option String)
    (gpt : CustomGPT) (hasKey : Bool) (history : List (String × String))
    (upstream : Upstream) :
    (pcRow? = none →
       handleTurn content pcRow? parentId? gpt hasKey history upstream
         = { status := 400, reply := none, userMessage := none,
             assistantMessage := none, alerts := [] })
  ∧ (∀ pcRow, pcRow? = some pcRow →
       (handleTurn content pcRow? parentId? gpt hasKey history upstream).status = 200
       ∧ ∃ r, (handleTurn content pcRow? parentId? gpt hasKey history upstream).reply = some r
            ∧ r ≠ "") := by
  constructor
  · intro h
    subst h
    rfl
  · intro pcRow h
    subst h
    exact ⟨rfl, _, rfl,
      turnStep_reply_ne_empty content pcRow.controls gpt hasKey history upstream⟩

/-- C9 witness: a missing parental-controls row is refused with 400; with a
row present the turn succeeds even on upstream failure. -/
theorem claim_C9_witness :
    handleTurn "Can you help me with my homework?" none (some "parent_1") gptEx true []
      Upstream.failure
      = { status := 400, reply := none, userMessage := none,
          assistantMessage := none, alerts := [] }
    ∧ (handleTurn "Can you help me with my homework?" (some pcRowBasic) (some "parent_1")
         gptEx true [] Upstream.failure).status = 200 :=
  ⟨(claim_C9 "Can you help me with my homework?" none (some "parent_1") gptEx true []
      Upstream.failure).1 rfl,
   ((claim_C9 "Can you help me with my homework?" (some pcRowBasic) (some "parent_1") gptEx
      true [] Upstream.failure).2 pcRowBasic rfl).1⟩

/-- C5: a safety-alert record is created iff the turn was flagged, alerting
is enabled, and a guardian linkage exists; at most one alert per turn. -/
theorem claim_C5 (content : String) (pcRow? : Option PCRow) (parentId? : Option String)
    (gpt : CustomGPT) (hasKey : Bool) (history : List (String × String))
    (upstream : Upstream) :
    (handleTurn content pcRow? parentId? gpt hasKey history upstream).alerts.length ≤ 1
  ∧ ((handleTurn content pcRow? parentId? gpt hasKey history upstream).alerts ≠ []
      ↔ ∃ pcRow parentId, pcRow? = some pcRow ∧ parentId? = some parentId
          ∧ pcRow.safety_alerts_enabled = true
          ∧ (handleTurn content pcRow? parentId? gpt hasKey history upstream).userMessage.map
              (fun m => m.isFlagged) = some true) := by
  cases pcRow? with
  | none => simp [handleTurn]
  | some pcRow =>
      cases parentId? with
      | none => simp [handleTurn]
      | some parentId =>
          cases hflag : (turnStep content pcRow.controls gpt hasKey history upstream).2.1 <;>
          cases henb : pcRow.safety_alerts_enabled <;>
          simp [handleTurn, hflag, henb]

/-- C5 witness: a flagged self-harm turn with alerting enabled and a parent
linked creates exactly one alert. -/
theorem claim_C5_witness :
    (handleTurn "I want to kill myself" (some pcRowBasic) (some "parent_1") gptEx true []
       Upstream.failure).alerts.length ≤ 1
    ∧ (handleTurn "I want to kill myself" (some pcRowBasic) (some "parent_1") gptEx true []
         Upstream.failure).alerts ≠ [] :=
  ⟨(claim_C5 "I want to kill myself" (some pcRowBasic) (some "parent_1") gptEx true []
      Upstream.failure).1,
   ((claim_C5 "I want to kill myself" (some pcRowBasic) (some "parent_1") gptEx true []
      Upstream.failure).2).mpr
     ⟨pcRowBasic, "parent_1", rfl, rfl, rfl, by decide⟩⟩

/-- C3 counterexample: for a safe input whose upstream reply fails output
screening, the route persists the flag on the user message and stores the
assistant message unflagged, contradicting the claim that the user Turn is
unflagged and the flag is recorded on the assistant message. -/
theorem claim_C3_counterexample :
    (checkAdvancedContentSafety "hello there" pcRowBasic.controls).isSafe = true
    ∧ (generateResponse "hello there" gptEx pcRowBasic.controls []
         (Upstream.success (some "I want to kill myself"))).isSafe = false
    ∧ (handleTurn "hello there" (some pcRowBasic) (some "parent_1") gptEx true []
         (Upstream.success (some "I want to kill myself"))).userMessage.map
           (fun m => m.isFlagged) = some true
    ∧ (handleTurn "hello there" (some pcRowBasic) (some "parent_1") gptEx true []
         (Upstream.success (some "I want to kill myself"))).assistantMessage.map
           (fun m => m.isFlagged) = some false := by
  refine ⟨by decide, by decide, by decide, by decide⟩

/-- C3 amended: on the safe-input path with an API key, the persisted user
Turn carries the risk flag and reason of the generateResponse result
(which, for a non-empty upstream reply, is the output-screening verdict on
that reply), and the assistant Turn is always persisted unflagged. -/
theorem claim_C3 (content : String) (pcRow : PCRow) (parentId? : Option String)
    (gpt : CustomGPT) (history : List (String × String)) (upstream : Upstream)
    (hsafe : (checkAdvancedContentSafety content pcRow.controls).isSafe = true) :
    (handleTurn content (some pcRow) parentId? gpt true history upstream).userMessage
      = some { role := "user", content := content,
               isFlagged := !(generateResponse content gpt pcRow.controls history upstream).isSafe,
               flagReason := (generateResponse content gpt pcRow.controls history upstream).flagReason }
  ∧ (handleTurn content (some pcRow) parentId? gpt true history upstream).assistantMessage
      = some { role := "assistant",
               content := (generateResponse content gpt pcRow.controls history upstream).content,
               isFlagged := false, flagReason := none }
  ∧ ∀ s : String, s ≠ "" → upstream = Upstream.success (some s) →
      (handleTurn content (some pcRow) parentId? gpt true history upstream).userMessage.map
          (fun m => m.isFlagged)
        = some (!(checkAdvancedContentSafety s pcRow.controls).isSafe) := by
  refine ⟨rfl, rfl, ?_⟩
  intro s hne hu
  subst hu
  simp [handleTurn, turnStep, generateResponse, generateResponseT, upstreamText, hsafe, hne]

/-- C3 witness: the flag recorded on the user message equals the
output-screening verdict on the upstream reply. -/
theorem claim_C3_witness :
    (handleTurn "hello there" (some pcRowBasic) (some "parent_1") gptEx true []
       (Upstream.success (some "I want to kill myself"))).userMessage.map
         (fun m => m.isFlagged)
      = some (!(checkAdvancedContentSafety "I want to kill myself" pcRowBasic.controls).isSafe) :=
  (claim_C3 "hello there" pcRowBasic (some "parent_1") gptEx []
      (Upstream.success (some "I want to kill myself")) (by decide)).2.2
    "I want to kill myself" (by decide) rfl

end ImagoMJ
